import Mathlib

/-!
Shallow embedding of the Linechart-Microservice core (src/main.cpp):
JSON data model with the Qt coercion semantics the code relies on, the
POST /charts/line validation chain, the series/axis-range pipeline,
`mergeCoordinates`, the artifact store, and the retrieval handler.
-/

set_option autoImplicit false

namespace Linechart

/-- JSON value model (mirrors QJsonValue: null, bool, number, string,
array, object).  Objects are association lists keyed by strings. -/
inductive Json where
  | null
  | bool (b : Bool)
  | num (q : Rat)
  | str (s : String)
  | arr (elems : List Json)
  | obj (fields : List (String × Json))

instance : Inhabited Json := ⟨Json.null⟩

/-- QJsonValue::isDouble. -/
def Json.isDouble : Json → Bool
  | .num _ => true
  | _ => false

/-- QJsonValue::toDouble (default 0 for non-numbers). -/
def Json.toDouble : Json → Rat
  | .num q => q
  | _ => 0

/-- QJsonValue::isArray. -/
def Json.isArray : Json → Bool
  | .arr _ => true
  | _ => false

/-- QJsonValue::toArray (empty array for non-arrays). -/
def Json.toArrayV : Json → List Json
  | .arr l => l
  | _ => []

/-- QJsonValue::isObject. -/
def Json.isObject : Json → Bool
  | .obj _ => true
  | _ => false

/-- QJsonValue::toObject (empty object for non-objects). -/
def Json.toObjectV : Json → List (String × Json)
  | .obj kvs => kvs
  | _ => []

/-- QJsonValue::isNull. -/
def Json.isNullV : Json → Bool
  | .null => true
  | _ => false

/-- QJsonValue::toString (empty string for non-strings). -/
def Json.toStringV : Json → String
  | .str s => s
  | _ => ""

/-- QJsonObject::value: first binding of the key, JSON null (undefined
behaves identically under the coercions used here) when absent. -/
def lookupKey (kvs : List (String × Json)) (k : String) : Json :=
  match kvs.find? (fun kv => kv.1 == k) with
  | some kv => kv.2
  | none => Json.null

/-- QJsonObject::contains. -/
def containsKey (kvs : List (String × Json)) (k : String) : Bool :=
  kvs.any (fun kv => kv.1 == k)

/-- QJsonDocument::object(): the root object, or the empty object when the
document root is not an object. -/
def docObject (doc : Json) : List (String × Json) :=
  doc.toObjectV

/-! ### The validation error messages (verbatim strings from main.cpp).
`sq` is the single-quote character used inside several of them. -/

def sq : String := String.mk [Char.ofNat 39]

def msgInvalidJson : String :=
  "Invalid data sent. Please send a valid JSON-Object."

def msgMissingKey (k : String) : String :=
  "Invalid data sent. Missing JSON-Key " ++ sq ++ k ++ sq ++
    ". Please send a valid JSON-Object."

def msgXStartNotDouble : String :=
  "Invalid data sent. JSON-Key " ++ sq ++ "X_Start" ++ sq ++
    " is not a double value. Please send a valid JSON-Object."

def msgXEndNotDouble : String :=
  "Invalid data sent. JSON-Key " ++ sq ++ "X_End" ++ sq ++
    " is not a double value. Please send a valid JSON-Object."

def msgPointsNotArray : String :=
  "Invalid data sent. JSON-Key " ++ sq ++ "Points" ++ sq ++
    " is not an array. Please send a valid JSON-Object."

def msgPointsEmpty : String :=
  "Invalid data sent. JSON-Key " ++ sq ++ "Points" ++ sq ++
    " is empty. Please send a valid JSON-Object."

def msgPointsMoreThanOne : String :=
  "Invalid data sent. JSON-Key " ++ sq ++ "Points" ++ sq ++
    " contains more than one array. Please send a valid JSON-Object."

def msgNoSubobjects : String :=
  "Invalid data sent. Array in JSON-Key " ++ sq ++ "Points" ++ sq ++
    " contains no JSON subobjects. Please send a valid JSON-Object."

def msgNotSubobject : String :=
  "Invalid data sent. A sub-object in array " ++ sq ++ "Y_Points" ++ sq ++
    " is not a proper JSON-object. Please send a valid JSON-Object."

def msgEmptyCaption : String :=
  "Invalid data sent. A caption of one sub-object in array " ++ sq ++ "Points" ++
    sq ++ " is empty. Please send a valid JSON-Object."

def msgXPointsNotArray : String :=
  "Invalid data sent. JSON-Key " ++ sq ++ "X_Points" ++ sq ++
    " of one sub-object in array " ++ sq ++ "Points" ++ sq ++
    " is not an array. Please send a valid JSON-Object."

def msgYPointsNotArray : String :=
  "Invalid data sent. JSON-Key " ++ sq ++ "Y_Points" ++ sq ++
    " of one sub-object in array " ++ sq ++ "Points" ++ sq ++
    " is not an array. Please send a valid JSON-Object."

def msgYPointNotDouble : String :=
  "Invalid data sent. A point in JSON-Key " ++ sq ++ "Y_Points" ++ sq ++
    " in one sub-object of " ++ sq ++ "Points" ++ sq ++
    " is not a double value. Please send a valid JSON-Object."

/-! ### The POST /charts/line validation chain (main.cpp lines 124-274). -/

/-- The per-series element checks of the validation loop (main.cpp lines
223-274): element is an object, caption non-empty, X_Points an array,
Y_Points an array of numbers.  Returns the first failing message. -/
def checkSeriesElem (v : Json) : Option String :=
  if !v.isObject then some msgNotSubobject
  else
    let o := v.toObjectV
    if (lookupKey o "Caption").toStringV = "" then some msgEmptyCaption
    else if !(lookupKey o "X_Points").isArray then some msgXPointsNotArray
    else if !(lookupKey o "Y_Points").isArray then some msgYPointsNotArray
    else
      match ((lookupKey o "Y_Points").toArrayV).find? (fun y => !y.isDouble) with
      | some _ => some msgYPointNotDouble
      | none => none

/-- The validation loop over the elements of the (single) nested array. -/
def checkSeriesList (vs : List Json) : Option String :=
  vs.findSome? checkSeriesElem

/-- The data the handler extracts once validation passes. -/
structure ValidCtx where
  xStart : Rat
  xEnd : Rat
  pointsArr : List Json

/-- The whole validation chain of the POST /charts/line handler, in source
order.  The input is the parsed request body: `none` models a body that
does not parse as JSON (a null QJsonDocument). -/
def validate (input : Option Json) : Except String ValidCtx :=
  match input with
  | none => .error msgInvalidJson
  | some doc =>
    let jsonObject := docObject doc
    if jsonObject.isEmpty then .error msgInvalidJson
    else if !containsKey jsonObject "X_Start" then .error (msgMissingKey "X_Start")
    else if !containsKey jsonObject "X_End" then .error (msgMissingKey "X_End")
    else if !containsKey jsonObject "Points" then .error (msgMissingKey "Points")
    else if !(lookupKey jsonObject "X_Start").isDouble then .error msgXStartNotDouble
    else if !(lookupKey jsonObject "X_End").isDouble then .error msgXEndNotDouble
    else if !(lookupKey jsonObject "Points").isArray then .error msgPointsNotArray
    else
      let xStart := (lookupKey jsonObject "X_Start").toDouble
      let xEnd := (lookupKey jsonObject "X_End").toDouble
      let jsonArray := (lookupKey jsonObject "Points").toArrayV
      if jsonArray.isEmpty then .error msgPointsEmpty
      else if decide (1 < jsonArray.length) then .error msgPointsMoreThanOne
      else if jsonArray.headI.isNullV then .error msgNoSubobjects
      else
        match checkSeriesList jsonArray.headI.toArrayV with
        | some m => .error m
        | none => .ok ⟨xStart, xEnd, jsonArray⟩

/-- Whether validation accepted the input. -/
def validateOkB (input : Option Json) : Bool :=
  match validate input with
  | .ok _ => true
  | .error _ => false

/-! ### The post-validation pipeline (main.cpp lines 276-344). -/

/-- QString::toDouble digit scanner: consumes leading decimal digits,
returning their value, their count and the rest. -/
def takeDigitsAux : List Char → Nat → Nat → Nat × Nat × List Char
  | [], acc, n => (acc, n, [])
  | c :: cs, acc, n =>
    if c.isDigit then takeDigitsAux cs (acc * 10 + (c.toNat - 48)) (n + 1)
    else (acc, n, c :: cs)

def isWsChar (c : Char) : Bool :=
  c == ' ' || c == Char.ofNat 9 || c == Char.ofNat 10 || c == Char.ofNat 13

def trimWs (cs : List Char) : List Char :=
  ((cs.dropWhile isWsChar).reverse.dropWhile isWsChar).reverse

/-- Mantissa of a decimal literal: `digits`, `digits.digits`, `digits.`
or `.digits` (at least one digit overall). -/
def parseMantissa (cs : List Char) : Option (Rat × List Char) :=
  let t1 := takeDigitsAux cs 0 0
  match t1.2.2 with
  | c :: r2 =>
    if c = '.' then
      let t2 := takeDigitsAux r2 0 0
      if t1.2.1 + t2.2.1 = 0 then none
      else some ((t1.1 : Rat) + (t2.1 : Rat) / ((10 : Rat) ^ t2.2.1), t2.2.2)
    else if t1.2.1 = 0 then none else some ((t1.1 : Rat), c :: r2)
  | [] => if t1.2.1 = 0 then none else some ((t1.1 : Rat), [])

/-- Optional exponent part `e[+-]digits`. -/
def parseExpPart : List Char → Option (Int × List Char)
  | [] => some (0, [])
  | c :: cs =>
    if c = 'e' ∨ c = 'E' then
      match cs with
      | [] => none
      | s :: r =>
        if s = '-' then
          let t := takeDigitsAux r 0 0
          if t.2.1 = 0 then none else some (-(t.1 : Int), t.2.2)
        else if s = '+' then
          let t := takeDigitsAux r 0 0
          if t.2.1 = 0 then none else some ((t.1 : Int), t.2.2)
        else
          let t := takeDigitsAux cs 0 0
          if t.2.1 = 0 then none else some ((t.1 : Int), t.2.2)
    else some (0, c :: cs)

/-- QString::toDouble: the whole (whitespace-trimmed) string must be a
decimal floating-point literal; `none` on any conversion error. -/
def parseQDouble (s : String) : Option Rat :=
  let cs := trimWs s.toList
  let signed : Bool × List Char :=
    match cs with
    | c :: r => if c = '-' then (true, r) else if c = '+' then (false, r) else (false, cs)
    | [] => (false, [])
  match parseMantissa signed.2 with
  | none => none
  | some (m, r1) =>
    match parseExpPart r1 with
    | none => none
    | some (e, r2) =>
      if r2 = [] then some ((if signed.1 then -m else m) * (10 : Rat) ^ e) else none

/-- QJsonValue::toVariant().toReal(): numbers pass through, booleans
become 0/1, strings are parsed as doubles (0 on failure), everything
else becomes 0. -/
def jsonToReal : Json → Rat
  | .num q => q
  | .bool b => if b then 1 else 0
  | .str s => (parseQDouble s).getD 0
  | _ => 0

/-- convertFromArrayToRealsVector (main.cpp lines 62-70). -/
def convertFromArrayToRealsVector (jsonArray : List Json) : List Rat :=
  jsonArray.map jsonToReal

/-- The pointsObjects lambda (main.cpp lines 276-288): flatten the outer
Points array and coerce each element to an object. -/
def pointsObjectsOf (jsonArray : List Json) : List (List (String × Json)) :=
  jsonArray.flatMap (fun v => v.toArrayV.map Json.toObjectV)

/-- QMap::insert on a key-sorted association list: replaces an existing
binding, otherwise inserts in key order. -/
def mapInsert {α : Type} (k : String) (v : α) : List (String × α) → List (String × α)
  | [] => [(k, v)]
  | (k', v') :: rest =>
    if k < k' then (k, v) :: (k', v') :: rest
    else if k = k' then (k, v) :: rest
    else (k', v') :: mapInsert k v rest

/-- The captionToPoints lambda (main.cpp lines 290-306): caption-keyed
map of converted X and Y vectors; later duplicate captions overwrite. -/
def captionToPointsOf (pointsObjects : List (List (String × Json))) :
    List (String × (List Rat × List Rat)) :=
  pointsObjects.foldl
    (fun m o =>
      mapInsert ((lookupKey o "Caption").toStringV)
        (convertFromArrayToRealsVector (lookupKey o "X_Points").toArrayV,
         convertFromArrayToRealsVector (lookupKey o "Y_Points").toArrayV) m)
    []

/-- The Y values collected across all series of the caption map, in
iteration order (main.cpp lines 320-323 and 334-337). -/
def allYPointsOf (m : List (String × (List Rat × List Rat))) : List Rat :=
  m.flatMap (fun kv => kv.2.2)

/-- The yStart lambda (main.cpp lines 318-330): min of all Y values when
there are at least two of them, otherwise 0. -/
def yStartOf (m : List (String × (List Rat × List Rat))) : Rat :=
  match allYPointsOf m with
  | a :: b :: rest => (b :: rest).foldl min a
  | _ => 0

/-- The yEnd lambda (main.cpp lines 332-344): max of all Y values when
there are at least two of them, otherwise 0. -/
def yEndOf (m : List (String × (List Rat × List Rat))) : Rat :=
  match allYPointsOf m with
  | a :: b :: rest => (b :: rest).foldl max a
  | _ => 0

/-- The generalXPointsRange lambda (main.cpp lines 308-316): a vector of
`int(|xStart| + |xEnd|)` entries filled by std::iota starting at xStart. -/
def generalXPointsRange (xStart xEnd : Rat) : List Rat :=
  (List.range (⌊|xStart| + |xEnd|⌋.toNat)).map (fun i : Nat => xStart + (i : Rat))

/-! ### mergeCoordinates (main.cpp lines 43-60). -/

/-- The loop of mergeCoordinates: each already-built point takes the last
element of the (reversed) y vector, which is removed, until the y vector
is exhausted. -/
def mergeLoop : List (Rat × Rat) → List Rat → List (Rat × Rat)
  | [], _ => []
  | p :: ps, ys =>
    match ys.getLast? with
    | none => p :: mergeLoop ps ys
    | some v => (p.1, v) :: mergeLoop ps ys.dropLast

/-- mergeCoordinates: points start as `(x, 0)` for each x, then the
reversed y vector is consumed from its back. -/
def mergeCoordinates (xPoints yPoints : List Rat) : List (Rat × Rat) :=
  mergeLoop (xPoints.map (fun x => (x, 0))) yPoints.reverse

/-! ### The POST success branch and artifact store (main.cpp 346-394). -/

def msgExpire : String := "The provided url will expire in 24 hours."

/-- Link construction of the POST handler (main.cpp line 390): host, port
and path are hardcoded. -/
def makeLink (uuid : String) : String :=
  "http://127.0.0.1:50001/charts/line/img/" ++ uuid

def errorResponse (m : String) : Json :=
  Json.obj [("Message", Json.str m)]

/-- The file path an artifact is saved under (main.cpp line 384). -/
def artifactPath (imgDir uuid : String) : String :=
  imgDir ++ "/" ++ uuid ++ ".png"

/-- The whole POST /charts/line handler: validation, series construction,
axis ranges, merging, rendering (the renderer is the external collaborator,
passed as a function) and the artifact write.  The artifact store is
threaded explicitly as a list of (path, bytes) pairs; every validation
failure returns before anything is appended to it. -/
def postHandler
    (render : Rat → Rat → Rat → Rat → List (String × List (Rat × Rat)) → List Nat)
    (imgDir uuid : String) (input : Option Json)
    (store : List (String × List Nat)) : Json × List (String × List Nat) :=
  match validate input with
  | .error m => (errorResponse m, store)
  | .ok ctx =>
    let pointsObjects := pointsObjectsOf ctx.pointsArr
    let captionToPoints := captionToPointsOf pointsObjects
    let yS := yStartOf captionToPoints
    let yE := yEndOf captionToPoints
    let coords := captionToPoints.map (fun kv => (kv.1, mergeCoordinates kv.2.1 kv.2.2))
    let bytes := render ctx.xStart ctx.xEnd yS yE coords
    (Json.obj [("Link", Json.str (makeLink uuid)), ("Message", Json.str msgExpire)],
     store ++ [(artifactPath imgDir uuid, bytes)])

/-! ### The GET /charts/line/result/<arg> handler (main.cpp 422-480). -/

/-- Value of a hexadecimal digit character, `none` otherwise. -/
def hexVal? (c : Char) : Option Nat :=
  if '0' ≤ c ∧ c ≤ '9' then some (c.toNat - 48)
  else if 'a' ≤ c ∧ c ≤ 'f' then some (c.toNat - 97 + 10)
  else if 'A' ≤ c ∧ c ≤ 'F' then some (c.toNat - 65 + 10)
  else none

/-- Lowercase image of a hex digit (QUuid::toString emits lowercase). -/
def toLowerHex (c : Char) : Char :=
  if 'A' ≤ c ∧ c ≤ 'F' then Char.ofNat (c.toNat + 32) else c

/-- Scanner for the 36-character `xxxxxxxx-xxxx-xxxx-xxxx-xxxxxxxxxxxx`
form: yields the 128-bit value and the lowercased canonical characters. -/
def parseUuidChars : Nat → Nat → List Char → Option (Nat × List Char)
  | i, acc, [] => if i = 36 then some (acc, []) else none
  | i, acc, c :: cs =>
    if i = 8 ∨ i = 13 ∨ i = 18 ∨ i = 23 then
      if c = '-' then
        (parseUuidChars (i + 1) acc cs).map (fun p => (p.1, '-' :: p.2))
      else none
    else
      match hexVal? c with
      | some v =>
        (parseUuidChars (i + 1) (acc * 16 + v) cs).map
          (fun p => (p.1, toLowerHex c :: p.2))
      | none => none

/-- QUuid::fromString: the five hyphen-separated hex fields, optionally
enclosed in curly braces.  Returns the numeric value (QUuid::isNull tests
it against zero) and the canonical unbraced lowercase string
(QUuid::toString(WithoutBraces)). -/
def parseUuid (s : String) : Option (Nat × String) :=
  let cs := s.toList
  let core :=
    if cs.length = 38 ∧ cs.headI = Char.ofNat 123 ∧ cs.getLastI = Char.ofNat 125
    then (cs.drop 1).dropLast else cs
  (parseUuidChars 0 0 core).map (fun p => (p.1, String.mk p.2))

/-- Base64 alphabet. -/
def b64char (n : Nat) : Char :=
  ("ABCDEFGHIJKLMNOPQRSTUVWXYZabcdefghijklmnopqrstuvwxyz0123456789+/".toList).getD n '='

/-- QByteArray::toBase64 over a byte list. -/
def base64Encode : List Nat → List Char
  | [] => []
  | [a] => [b64char (a / 4), b64char (a % 4 * 16), '=', '=']
  | [a, b] => [b64char (a / 4), b64char (a % 4 * 16 + b / 16), b64char (b % 16 * 4), '=']
  | a :: b :: c :: rest =>
    b64char (a / 4) :: b64char (a % 4 * 16 + b / 16) ::
      b64char (b % 16 * 4 + c / 64) :: b64char (c % 64) :: base64Encode rest

/-- The filesystem as seen by the retrieval handler: QFile::exists and a
read-only open that yields the full byte content (or fails). -/
structure Fs where
  fileExists : String → Bool
  openRead : String → Option (List Nat)

def msgInvalidUuid : String :=
  "The submitted argument is not an UUID. Please send a valid UUID."

def msgNotFound : String :=
  "The submitted UUID is either not linked to any chart or already expired. Please contact our support via our e-mail %0 ."

def msgIoError : String :=
  "An internal error (errorcode 100) has occured. Please contact our support via our e-mail %0 ."

def msgDataOk : String :=
  "The " ++ sq ++ "Data" ++ sq ++
    " entry of this JSON-object contains the base64-encoded png-file data of your chart-plot."

/-- The responseFunction of the /charts/line/result/<arg> route (main.cpp
lines 433-477).  Also returns the list of paths touched on the filesystem,
in order, so that "no filesystem access" is a provable statement. -/
def fetch (fs : Fs) (imgDir argument : String) : Json × List String :=
  match parseUuid argument with
  | none => (errorResponse msgInvalidUuid, [])
  | some (n, canonical) =>
    if n = 0 then (errorResponse msgInvalidUuid, [])
    else
      let path := artifactPath imgDir canonical
      if !fs.fileExists path then (errorResponse msgNotFound, [path])
      else
        match fs.openRead path with
        | none => (errorResponse msgIoError, [path, path])
        | some bytes =>
          (Json.obj
            [("Message", Json.str msgDataOk),
             ("Data", Json.str (String.mk (base64Encode bytes)))],
           [path, path])

/-- A filesystem backed by the artifact store list of the POST handler. -/
def fsOf (store : List (String × List Nat)) : Fs :=
  ⟨fun p => (store.find? (fun kv => kv.1 == p)).isSome,
   fun p => (store.find? (fun kv => kv.1 == p)).map (fun kv => kv.2)⟩

/-! ### The ping route. -/

/-- Modelled from the spec: a `GET /charts/line/ping` route answering
`{"Message": "Pong."}`.  No such route is registered in src/main.cpp
(the repository's other source variants carry it); this definition follows
the spec sentence `GET /charts/line/ping` → `200 {"Message": "Pong."}`. -/
def pingRoute (method : String) (path : String) : Option Json :=
  if method == "GET" && path == "/charts/line/ping"
  then some (Json.obj [("Message", Json.str "Pong.")])
  else none

/-! ### Characterization of mergeCoordinates. -/

/-- Specification-side pairing: x-points keep their order, the i-th
coordinate takes the i-th y-point, missing y-points default to 0 and
excess y-points are dropped. -/
def padZip : List Rat → List Rat → List (Rat × Rat)
  | [], _ => []
  | x :: xs, [] => (x, 0) :: padZip xs []
  | x :: xs, y :: ys => (x, y) :: padZip xs ys

theorem mergeLoop_map_reverse (xs ys : List Rat) :
    mergeLoop (xs.map (fun x => (x, 0))) ys.reverse = padZip xs ys := by
  induction xs generalizing ys with
  | nil => rfl
  | cons x xs ih =>
    cases ys with
    | nil =>
      simp only [List.map_cons, List.reverse_nil, mergeLoop, padZip]
      exact congrArg _ (ih [])
    | cons y ys =>
      simp [mergeLoop, List.reverse_cons, List.getLast?_concat,
        List.dropLast_concat, padZip, ih]

theorem mergeCoordinates_eq_padZip (xs ys : List Rat) :
    mergeCoordinates xs ys = padZip xs ys :=
  mergeLoop_map_reverse xs ys

theorem padZip_length (xs ys : List Rat) : (padZip xs ys).length = xs.length := by
  induction xs generalizing ys with
  | nil => rfl
  | cons x xs ih => cases ys <;> simp [padZip, ih]

theorem padZip_map_fst (xs ys : List Rat) : (padZip xs ys).map Prod.fst = xs := by
  induction xs generalizing ys with
  | nil => rfl
  | cons x xs ih => cases ys <;> simp [padZip, ih]

theorem padZip_getD_lt (xs ys : List Rat) :
    ∀ i, i < xs.length → i < ys.length →
      ((padZip xs ys).getD i (0, 0)).2 = ys.getD i 0 := by
  induction xs generalizing ys with
  | nil => intro i hi _; exact absurd hi (by simp)
  | cons x xs ih =>
    intro i hi hy
    cases ys with
    | nil => exact absurd hy (by simp)
    | cons y ys =>
      cases i with
      | zero => rfl
      | succ j =>
        simp only [padZip, List.getD_cons_succ]
        exact ih ys j (Nat.lt_of_succ_lt_succ hi) (Nat.lt_of_succ_lt_succ hy)

theorem padZip_getD_ge (xs ys : List Rat) :
    ∀ i, ys.length ≤ i → i < xs.length →
      ((padZip xs ys).getD i (0, 0)).2 = 0 := by
  induction xs generalizing ys with
  | nil => intro i _ hi; exact absurd hi (by simp)
  | cons x xs ih =>
    intro i hy hi
    cases ys with
    | nil =>
      cases i with
      | zero => rfl
      | succ j =>
        simp only [padZip, List.getD_cons_succ]
        exact ih [] j (Nat.zero_le j) (Nat.lt_of_succ_lt_succ hi)
    | cons y ys =>
      cases i with
      | zero => exact absurd hy (by simp)
      | succ j =>
        simp only [padZip, List.getD_cons_succ]
        exact ih ys j (Nat.le_of_succ_le_succ hy) (Nat.lt_of_succ_lt_succ hi)

/-! ### Fold characterizations for min/max over the collected Y values. -/

theorem foldl_min_le (l : List Rat) (a : Rat) : l.foldl min a ≤ a := by
  induction l generalizing a with
  | nil => simp
  | cons x xs ih =>
    calc xs.foldl min (min a x) ≤ min a x := ih (min a x)
    _ ≤ a := min_le_left a x

theorem foldl_min_le_mem (l : List Rat) (a x : Rat) (hx : x ∈ l) :
    l.foldl min a ≤ x := by
  induction l generalizing a with
  | nil => cases hx
  | cons b bs ih =>
    rcases List.mem_cons.mp hx with h | h
    · subst h
      exact le_trans (foldl_min_le bs (min a x)) (min_le_right a x)
    · exact ih (min a b) h

theorem foldl_min_mem (l : List Rat) (a : Rat) :
    l.foldl min a = a ∨ l.foldl min a ∈ l := by
  induction l generalizing a with
  | nil => left; rfl
  | cons b bs ih =>
    rcases ih (min a b) with h | h
    · rcases min_choice a b with h2 | h2
      · left; rw [List.foldl_cons, h, h2]
      · right; rw [List.foldl_cons, h, h2]; exact List.mem_cons_self b bs
    · right; exact List.mem_cons_of_mem b h

theorem foldl_max_ge (l : List Rat) (a : Rat) : a ≤ l.foldl max a := by
  induction l generalizing a with
  | nil => simp
  | cons x xs ih =>
    calc a ≤ max a x := le_max_left a x
    _ ≤ xs.foldl max (max a x) := ih (max a x)

theorem foldl_max_ge_mem (l : List Rat) (a x : Rat) (hx : x ∈ l) :
    x ≤ l.foldl max a := by
  induction l generalizing a with
  | nil => cases hx
  | cons b bs ih =>
    rcases List.mem_cons.mp hx with h | h
    · subst h
      exact le_trans (le_max_right a x) (foldl_max_ge bs (max a x))
    · exact ih (max a b) h

theorem foldl_max_mem (l : List Rat) (a : Rat) :
    l.foldl max a = a ∨ l.foldl max a ∈ l := by
  induction l generalizing a with
  | nil => left; rfl
  | cons b bs ih =>
    rcases ih (max a b) with h | h
    · rcases max_choice a b with h2 | h2
      · left; rw [List.foldl_cons, h, h2]
      · right; rw [List.foldl_cons, h, h2]; exact List.mem_cons_self b bs
    · right; exact List.mem_cons_of_mem b h

/-! ### First-failing-check presentation of the validator (from the spec
wording: "validation is fail-fast, evaluating checks in this fixed order
and returning the first failing error"). -/

/-- Scan a list of (violated?, message) checks and return the message of
the first violated one. -/
def firstError : List (Bool × String) → Option String
  | [] => none
  | e :: rest => if e.1 then some e.2 else firstError rest

/-- The per-series checks of spec rule 7, in order, as (violated?,
message) pairs. -/
def seriesFailChecks (v : Json) : List (Bool × String) :=
  [(!v.isObject, msgNotSubobject),
   (decide ((lookupKey v.toObjectV "Caption").toStringV = ""), msgEmptyCaption),
   (!(lookupKey v.toObjectV "X_Points").isArray, msgXPointsNotArray),
   (!(lookupKey v.toObjectV "Y_Points").isArray, msgYPointsNotArray)]
  ++ ((lookupKey v.toObjectV "Y_Points").toArrayV).map
      (fun y => (!y.isDouble, msgYPointNotDouble))

/-- The ordered check list of spec section 4.1 for a request body. -/
def specOrderedChecks (input : Option Json) : List (Bool × String) :=
  match input with
  | none => [(true, msgInvalidJson)]
  | some doc =>
    let o := docObject doc
    let ja := (lookupKey o "Points").toArrayV
    [(o.isEmpty, msgInvalidJson),
     (!containsKey o "X_Start", msgMissingKey "X_Start"),
     (!containsKey o "X_End", msgMissingKey "X_End"),
     (!containsKey o "Points", msgMissingKey "Points"),
     (!(lookupKey o "X_Start").isDouble, msgXStartNotDouble),
     (!(lookupKey o "X_End").isDouble, msgXEndNotDouble),
     (!(lookupKey o "Points").isArray, msgPointsNotArray),
     (ja.isEmpty, msgPointsEmpty),
     (decide (1 < ja.length), msgPointsMoreThanOne),
     (ja.headI.isNullV, msgNoSubobjects)]
    ++ ja.headI.toArrayV.flatMap seriesFailChecks

/-- The context the validator hands to the pipeline when it accepts. -/
def ctxOf (input : Option Json) : ValidCtx :=
  match input with
  | none => ⟨0, 0, []⟩
  | some doc =>
    let o := docObject doc
    ⟨(lookupKey o "X_Start").toDouble, (lookupKey o "X_End").toDouble,
     (lookupKey o "Points").toArrayV⟩

theorem firstError_append (l1 l2 : List (Bool × String)) :
    firstError (l1 ++ l2) =
      match firstError l1 with
      | some m => some m
      | none => firstError l2 := by
  induction l1 with
  | nil => rfl
  | cons e l1 ih =>
    cases he : e.1 <;> simp [firstError, he, ih]

theorem find?_notDouble_eq_firstError (ys : List Json) :
    (match ys.find? (fun y => !y.isDouble) with
     | some _ => some msgYPointNotDouble
     | none => (none : Option String)) =
    firstError (ys.map (fun y => (!y.isDouble, msgYPointNotDouble))) := by
  induction ys with
  | nil => rfl
  | cons y ys ih =>
    cases hy : y.isDouble <;> simp [List.find?, firstError, hy, ih]

theorem checkSeriesElem_eq_firstError (v : Json) :
    checkSeriesElem v = firstError (seriesFailChecks v) := by
  unfold checkSeriesElem seriesFailChecks
  cases hobj : v.isObject with
  | false => simp [firstError, hobj]
  | true =>
    simp only [hobj, Bool.not_true, Bool.false_eq_true, if_false,
      List.cons_append, List.nil_append, firstError]
    by_cases hc : (lookupKey v.toObjectV "Caption").toStringV = ""
    · simp [firstError, hc]
    · simp only [hc, decide_False, Bool.false_eq_true, if_false]
      cases hx : (lookupKey v.toObjectV "X_Points").isArray
      · simp [firstError, hx]
      · simp only [hx, Bool.not_true, Bool.false_eq_true, if_false]
        cases hy : (lookupKey v.toObjectV "Y_Points").isArray
        · simp [firstError, hy]
        · simp only [hy, Bool.not_true, Bool.false_eq_true, if_false]
          exact find?_notDouble_eq_firstError _

theorem checkSeriesList_eq_firstError (vs : List Json) :
    checkSeriesList vs = firstError (vs.flatMap seriesFailChecks) := by
  induction vs with
  | nil => rfl
  | cons v vs ih =>
    show (v :: vs).findSome? checkSeriesElem = _
    rw [List.flatMap_cons, firstError_append, ← checkSeriesElem_eq_firstError]
    cases h : checkSeriesElem v with
    | some m => simp [List.findSome?, h]
    | none => simpa [checkSeriesList, List.findSome?, h] using ih

/-- The validator is exactly the scan for the first violated check of the
ordered check list: it accepts iff no check is violated, and otherwise
returns the message of the first violated one. -/
theorem validate_eq_firstError (input : Option Json) :
    validate input =
      match firstError (specOrderedChecks input) with
      | some m => Except.error m
      | none => Except.ok (ctxOf input) := by
  cases input with
  | none => rfl
  | some doc =>
    simp only [validate, specOrderedChecks, ctxOf, List.cons_append,
      List.nil_append, firstError]
    cases h1 : (docObject doc).isEmpty
    · cases h2 : containsKey (docObject doc) "X_Start"
      · simp [firstError, h1, h2]
      · cases h3 : containsKey (docObject doc) "X_End"
        · simp [firstError, h1, h2, h3]
        · cases h4 : containsKey (docObject doc) "Points"
          · simp [firstError, h1, h2, h3, h4]
          · cases h5 : (lookupKey (docObject doc) "X_Start").isDouble
            · simp [firstError, h1, h2, h3, h4, h5]
            · cases h6 : (lookupKey (docObject doc) "X_End").isDouble
              · simp [firstError, h1, h2, h3, h4, h5, h6]
              · cases h7 : (lookupKey (docObject doc) "Points").isArray
                · simp [firstError, h1, h2, h3, h4, h5, h6, h7]
                · cases h8 : ((lookupKey (docObject doc) "Points").toArrayV).isEmpty
                  · cases h9 : decide (1 < ((lookupKey (docObject doc) "Points").toArrayV).length)
                    · cases h10 : ((lookupKey (docObject doc) "Points").toArrayV).headI.isNullV
                      · rw [checkSeriesList_eq_firstError]
                        simp only [h1, h2, h3, h4, h5, h6, h7, h8, h9, h10,
                          Bool.not_true, Bool.not_false, Bool.false_eq_true,
                          Bool.true_eq_false, if_false, if_true, ite_true, ite_false]
                        cases hfe : firstError
                            (((lookupKey (docObject doc) "Points").toArrayV).headI.toArrayV.flatMap
                              seriesFailChecks) <;> simp [hfe]
                      · simp [firstError, h1, h2, h3, h4, h5, h6, h7, h8, h9, h10]
                    · simp [firstError, h1, h2, h3, h4, h5, h6, h7, h8, h9]
                  · simp [firstError, h1, h2, h3, h4, h5, h6, h7, h8]
    · simp [firstError, h1]

/-! ### Helper lemmas for the claim theorems. -/

theorem findSome?_eq_none_mem {α β : Type} (f : α → Option β) (l : List α)
    (h : l.findSome? f = none) : ∀ x ∈ l, f x = none := by
  induction l with
  | nil => intro x hx; cases hx
  | cons a l ih =>
    intro x hx
    have hfa : f a = none := by
      cases hfa : f a with
      | none => rfl
      | some b => simp only [List.findSome?, hfa] at h; exact h
    have hrest : l.findSome? f = none := by
      simpa only [List.findSome?, hfa] using h
    rcases List.mem_cons.mp hx with h1 | h1
    · rw [h1, hfa]
    · exact ih hrest x h1

theorem isObject_of_checkSeriesElem_none (v : Json)
    (h : checkSeriesElem v = none) : v.isObject = true := by
  cases hv : v.isObject with
  | true => rfl
  | false =>
    unfold checkSeriesElem at h
    rw [hv] at h
    simp at h

def mkPointsReq (xs xe : Rat) (ps : List Json) : Json :=
  Json.obj [("X_Start", Json.num xs), ("X_End", Json.num xe), ("Points", Json.arr ps)]

theorem validate_mkPointsReq (xs xe : Rat) (ps : List Json) :
    validate (some (mkPointsReq xs xe ps)) =
      (if ps.isEmpty then Except.error msgPointsEmpty
       else if decide (1 < ps.length) then Except.error msgPointsMoreThanOne
       else if ps.headI.isNullV then Except.error msgNoSubobjects
       else
         match checkSeriesList ps.headI.toArrayV with
         | some m => Except.error m
         | none => Except.ok ⟨xs, xe, ps⟩) := rfl

theorem yStartOf_nil (m : List (String × (List Rat × List Rat)))
    (h : allYPointsOf m = []) : yStartOf m = 0 := by
  unfold yStartOf; rw [h]

theorem yStartOf_single (m : List (String × (List Rat × List Rat))) (a : Rat)
    (h : allYPointsOf m = [a]) : yStartOf m = 0 := by
  unfold yStartOf; rw [h]

theorem yStartOf_cons2 (m : List (String × (List Rat × List Rat))) (a b : Rat)
    (rest : List Rat) (h : allYPointsOf m = a :: b :: rest) :
    yStartOf m = (b :: rest).foldl min a := by
  unfold yStartOf; rw [h]

theorem yEndOf_nil (m : List (String × (List Rat × List Rat)))
    (h : allYPointsOf m = []) : yEndOf m = 0 := by
  unfold yEndOf; rw [h]

theorem yEndOf_single (m : List (String × (List Rat × List Rat))) (a : Rat)
    (h : allYPointsOf m = [a]) : yEndOf m = 0 := by
  unfold yEndOf; rw [h]

theorem yEndOf_cons2 (m : List (String × (List Rat × List Rat))) (a b : Rat)
    (rest : List Rat) (h : allYPointsOf m = a :: b :: rest) :
    yEndOf m = (b :: rest).foldl max a := by
  unfold yEndOf; rw [h]

/-! ### Concrete inputs used by claim theorems. -/

def reqGood : Json :=
  Json.obj [("X_Start", Json.num 0), ("X_End", Json.num 5),
    ("Points", Json.arr [Json.arr [Json.obj
      [("Caption", Json.str "A"),
       ("X_Points", Json.arr [Json.num 0, Json.num 1, Json.num 2, Json.num 3, Json.num 4]),
       ("Y_Points", Json.arr [Json.num 1, Json.num 2, Json.num 3])]]])]

def uuidOne : String := "00000000-0000-0000-0000-000000000001"

def nilUuidStr : String := "00000000-0000-0000-0000-000000000000"

def fsEmpty : Fs := ⟨fun _ => false, fun _ => none⟩

def demoRender : Rat → Rat → Rat → Rat → List (String × List (Rat × Rat)) → List Nat :=
  fun _ _ _ _ _ => [137, 80, 78, 71]

def reqC4 : Json := mkPointsReq 0 5 [Json.num 5]

def mkXReq (xList : List Json) : Json :=
  Json.obj [("X_Start", Json.num 0), ("X_End", Json.num 1),
    ("Points", Json.arr [Json.arr [Json.obj
      [("Caption", Json.str "A"),
       ("X_Points", Json.arr xList),
       ("Y_Points", Json.arr [Json.num 1])]]])]

/-! ### Claim theorems. -/

/-- C1 (code bug): for a valid request the POST handler's response embeds a
Link built on the hardcoded base `http://127.0.0.1:50001` with path
`/charts/line/img/<id>`, which is NOT an extension of the registered
retrieval route `/charts/line/result/`; the identifier itself does resolve
through the retrieval handler to the stored bytes, so the advertised URL is
the slip. -/
theorem c1_link_route_mismatch :
    (postHandler demoRender "/img" uuidOne (some reqGood) []).1 =
      Json.obj [("Link", Json.str (makeLink uuidOne)), ("Message", Json.str msgExpire)] ∧
    (("http://127.0.0.1:50001/charts/line/result/".toList).isPrefixOf
      (makeLink uuidOne).toList) = false ∧
    (fetch (fsOf (postHandler demoRender "/img" uuidOne (some reqGood) []).2)
        "/img" uuidOne).1 =
      Json.obj [("Message", Json.str msgDataOk),
                ("Data", Json.str (String.mk (base64Encode [137, 80, 78, 71])))] :=
  ⟨rfl, rfl, rfl⟩

/-- C2: mergeCoordinates produces exactly one coordinate per x-point, keeps
the x-points in order, pairs the i-th y-point with the i-th coordinate for
i < min(m,n), pads missing y-values with 0, and discards excess y-points. -/
theorem c2_merge_policy (xs ys : List Rat) :
    (mergeCoordinates xs ys).length = xs.length ∧
    (mergeCoordinates xs ys).map Prod.fst = xs ∧
    (∀ i, i < xs.length → i < ys.length →
      ((mergeCoordinates xs ys).getD i (0, 0)).2 = ys.getD i 0) ∧
    (∀ i, ys.length ≤ i → i < xs.length →
      ((mergeCoordinates xs ys).getD i (0, 0)).2 = 0) := by
  rw [mergeCoordinates_eq_padZip]
  exact ⟨padZip_length xs ys, padZip_map_fst xs ys,
    padZip_getD_lt xs ys, padZip_getD_ge xs ys⟩

theorem c2_merge_policy_witness :
    (mergeCoordinates [0, 1, 2, 3, 4] [1, 2, 3]).length = 5 ∧
    ((mergeCoordinates [0, 1, 2, 3, 4] [1, 2, 3]).getD 2 (0, 0)).2 = 3 ∧
    ((mergeCoordinates [0, 1, 2, 3, 4] [1, 2, 3]).getD 3 (0, 0)).2 = 0 :=
  ⟨(c2_merge_policy [0, 1, 2, 3, 4] [1, 2, 3]).1,
   (c2_merge_policy [0, 1, 2, 3, 4] [1, 2, 3]).2.2.1 2 (by decide) (by decide),
   (c2_merge_policy [0, 1, 2, 3, 4] [1, 2, 3]).2.2.2 3 (by decide) (by decide)⟩

/-- C3 (counterexample to "each check's failure produces a distinct
message"): a body that fails to parse as JSON (check 1) and a body whose
root is an empty JSON object (check 2) produce the identical message. -/
theorem c3_shared_message :
    validate none = Except.error msgInvalidJson ∧
    validate (some (Json.obj [])) = Except.error msgInvalidJson :=
  ⟨rfl, rfl⟩

/-- C3 (amended): the validator is fail-fast — it returns exactly the
message of the first violated check of the ordered check list, and accepts
iff none is violated; all check messages are pairwise distinct except that
checks 1 and 2 share `msgInvalidJson`. -/
theorem c3_fail_fast_amended (input : Option Json) :
    (∀ m, firstError (specOrderedChecks input) = some m →
      validate input = Except.error m) ∧
    (firstError (specOrderedChecks input) = none →
      validate input = Except.ok (ctxOf input)) ∧
    List.Nodup [msgInvalidJson, msgMissingKey "X_Start", msgMissingKey "X_End",
      msgMissingKey "Points", msgXStartNotDouble, msgXEndNotDouble,
      msgPointsNotArray, msgPointsEmpty, msgPointsMoreThanOne, msgNoSubobjects,
      msgNotSubobject, msgEmptyCaption, msgXPointsNotArray, msgYPointsNotArray,
      msgYPointNotDouble] := by
  refine ⟨?_, ?_, by decide⟩
  · intro m hm
    rw [validate_eq_firstError, hm]
  · intro hm
    rw [validate_eq_firstError, hm]

theorem c3_fail_fast_amended_witness :
    validate (some (Json.obj [("A", Json.num 1)])) =
      Except.error (msgMissingKey "X_Start") :=
  (c3_fail_fast_amended (some (Json.obj [("A", Json.num 1)]))).1
    (msgMissingKey "X_Start") rfl

/-- C4 (counterexample): a payload whose Points array holds a single
element that is neither an array nor null — here the number 5 — is
accepted by the validator, not rejected. -/
theorem c4_single_non_array_accepted : validateOkB (some reqC4) = true := rfl

/-- C4 (amended): Points must be non-empty (else the empty-Points error),
must not have two or more elements (else the arity error), a single null
element is rejected with the no-subobjects error, and whenever validation
accepts, every element of the first element's array coercion is a JSON
object; a single non-null non-array element is accepted (coerced to an
empty series list). -/
theorem c4_arity_amended (xs xe : Rat) (ps : List Json) :
    (ps = [] → validate (some (mkPointsReq xs xe ps)) = Except.error msgPointsEmpty) ∧
    (1 < ps.length →
      validate (some (mkPointsReq xs xe ps)) = Except.error msgPointsMoreThanOne) ∧
    (ps.length = 1 → ps.headI = Json.null →
      validate (some (mkPointsReq xs xe ps)) = Except.error msgNoSubobjects) ∧
    (∀ ctx, validate (some (mkPointsReq xs xe ps)) = Except.ok ctx →
      ∀ e ∈ ps.headI.toArrayV, e.isObject = true) := by
  refine ⟨?_, ?_, ?_, ?_⟩
  · intro h; subst h; rfl
  · intro h
    rw [validate_mkPointsReq]
    match ps, h with
    | p :: q :: ps', _ =>
      rw [if_neg (by simp), if_pos
        (by simp only [decide_eq_true_eq, List.length_cons]; omega)]
  · intro h1 h2
    rw [validate_mkPointsReq]
    match ps, h1 with
    | [p], _ =>
      have hp : p = Json.null := h2
      subst hp; rfl
  · intro ctx hok e he
    rw [validate_mkPointsReq] at hok
    split_ifs at hok
    cases hcs : checkSeriesList ps.headI.toArrayV with
    | some m => rw [hcs] at hok; exact absurd hok (by simp)
    | none =>
      exact isObject_of_checkSeriesElem_none e
        (findSome?_eq_none_mem checkSeriesElem _ hcs e he)

theorem c4_arity_amended_witness :
    validate (some (mkPointsReq 0 0 [])) = Except.error msgPointsEmpty ∧
    validate (some (mkPointsReq 0 0 [Json.arr [], Json.arr []])) =
      Except.error msgPointsMoreThanOne ∧
    validate (some (mkPointsReq 0 0 [Json.null])) = Except.error msgNoSubobjects :=
  ⟨(c4_arity_amended 0 0 []).1 rfl,
   (c4_arity_amended 0 0 [Json.arr [], Json.arr []]).2.1 (by decide),
   (c4_arity_amended 0 0 [Json.null]).2.2.1 rfl rfl⟩

/-- C5: the computed Y range is (min V, max V) over the multiset V of all
Y values collected from the caption map — yStart is a member of V and a
lower bound, yEnd a member and an upper bound — except that both are 0
when V has at most one element. -/
theorem c5_y_range (m : List (String × (List Rat × List Rat))) :
    ((allYPointsOf m).length ≤ 1 → yStartOf m = 0 ∧ yEndOf m = 0) ∧
    (2 ≤ (allYPointsOf m).length →
      (yStartOf m ∈ allYPointsOf m ∧ ∀ v ∈ allYPointsOf m, yStartOf m ≤ v) ∧
      (yEndOf m ∈ allYPointsOf m ∧ ∀ v ∈ allYPointsOf m, v ≤ yEndOf m)) := by
  constructor
  · intro h
    rcases hm : allYPointsOf m with _ | ⟨a, _ | ⟨b, rest⟩⟩
    · exact ⟨yStartOf_nil m hm, yEndOf_nil m hm⟩
    · exact ⟨yStartOf_single m a hm, yEndOf_single m a hm⟩
    · rw [hm] at h; simp only [List.length_cons] at h; omega
  · intro h
    rcases hm : allYPointsOf m with _ | ⟨a, _ | ⟨b, rest⟩⟩
    · rw [hm] at h; simp at h
    · rw [hm] at h; simp at h
    · refine ⟨⟨?_, ?_⟩, ?_, ?_⟩
      · rw [yStartOf_cons2 m a b rest hm]
        rcases foldl_min_mem (b :: rest) a with h1 | h1
        · rw [h1]; exact List.mem_cons_self a _
        · exact List.mem_cons_of_mem a h1
      · intro v hv
        rw [yStartOf_cons2 m a b rest hm]
        rcases List.mem_cons.mp hv with h1 | h1
        · rw [h1]; exact foldl_min_le _ a
        · exact foldl_min_le_mem _ a v h1
      · rw [yEndOf_cons2 m a b rest hm]
        rcases foldl_max_mem (b :: rest) a with h1 | h1
        · rw [h1]; exact List.mem_cons_self a _
        · exact List.mem_cons_of_mem a h1
      · intro v hv
        rw [yEndOf_cons2 m a b rest hm]
        rcases List.mem_cons.mp hv with h1 | h1
        · rw [h1]; exact foldl_max_ge _ a
        · exact foldl_max_ge_mem _ a v h1

theorem c5_y_range_witness :
    (yStartOf [("A", ([], [3, 1, 2]))] ∈ allYPointsOf [("A", ([], [3, 1, 2]))]) ∧
    (yEndOf [("A", ([], [3, 1, 2]))] ∈ allYPointsOf [("A", ([], [3, 1, 2]))]) :=
  ⟨((c5_y_range [("A", ([], [3, 1, 2]))]).2 (by decide)).1.1,
   ((c5_y_range [("A", ([], [3, 1, 2]))]).2 (by decide)).2.1⟩

/-- C6: whenever validation fails, the POST handler returns the structured
error and the artifact store is returned unchanged — no file is created
for an invalid request. -/
theorem c6_no_side_effect
    (render : Rat → Rat → Rat → Rat → List (String × List (Rat × Rat)) → List Nat)
    (imgDir uuid : String) (input : Option Json)
    (store : List (String × List Nat)) (m : String)
    (h : validate input = Except.error m) :
    postHandler render imgDir uuid input store = (errorResponse m, store) := by
  unfold postHandler
  rw [h]

theorem c6_no_side_effect_witness :
    postHandler demoRender "/img" "u"
      (some (mkPointsReq 0 0 [])) [] = (errorResponse msgPointsEmpty, []) :=
  c6_no_side_effect demoRender "/img" "u" (some (mkPointsReq 0 0 [])) []
    msgPointsEmpty rfl

/-- C7 (counterexample): the all-zero identifier is a syntactically valid
UUID string (it parses), yet the retrieval handler answers with the
invalid-identifier message — not the not-found message the claim requires
for a well-formed identifier with no stored file. -/
theorem c7_nil_uuid_rejected :
    (parseUuid nilUuidStr).isSome = true ∧
    fetch fsEmpty "/img" nilUuidStr = (errorResponse msgInvalidUuid, []) ∧
    msgInvalidUuid ≠ msgNotFound := by
  refine ⟨rfl, rfl, by decide⟩

/-- C7 (amended): a malformed or nil identifier yields the
invalid-identifier error with no filesystem access; a well-formed non-nil
identifier whose file is absent yields the not-found error; an existing
file that fails to open yields the IO error; otherwise the full file bytes
are returned base64-encoded in the Data field. -/
theorem c7_fetch_amended (fs : Fs) (imgDir arg : String) :
    (parseUuid arg = none →
      fetch fs imgDir arg = (errorResponse msgInvalidUuid, [])) ∧
    (∀ n c, parseUuid arg = some (n, c) → n = 0 →
      fetch fs imgDir arg = (errorResponse msgInvalidUuid, [])) ∧
    (∀ n c, parseUuid arg = some (n, c) → n ≠ 0 →
      fs.fileExists (artifactPath imgDir c) = false →
      fetch fs imgDir arg = (errorResponse msgNotFound, [artifactPath imgDir c])) ∧
    (∀ n c, parseUuid arg = some (n, c) → n ≠ 0 →
      fs.fileExists (artifactPath imgDir c) = true →
      fs.openRead (artifactPath imgDir c) = none →
      fetch fs imgDir arg =
        (errorResponse msgIoError, [artifactPath imgDir c, artifactPath imgDir c])) ∧
    (∀ n c bytes, parseUuid arg = some (n, c) → n ≠ 0 →
      fs.fileExists (artifactPath imgDir c) = true →
      fs.openRead (artifactPath imgDir c) = some bytes →
      fetch fs imgDir arg =
        (Json.obj [("Message", Json.str msgDataOk),
                   ("Data", Json.str (String.mk (base64Encode bytes)))],
         [artifactPath imgDir c, artifactPath imgDir c])) := by
  refine ⟨?_, ?_, ?_, ?_, ?_⟩
  · intro h; unfold fetch; rw [h]
  · intro n c h h0; unfold fetch; rw [h]; subst h0; simp
  · intro n c h hn hex
    unfold fetch; rw [h]
    simp only [if_neg hn, hex, Bool.not_false, if_true]
  · intro n c h hn hex hop
    unfold fetch; rw [h]
    simp only [if_neg hn, hex, Bool.not_true, Bool.false_eq_true, if_false, hop]
  · intro n c bytes h hn hex hop
    unfold fetch; rw [h]
    simp only [if_neg hn, hex, Bool.not_true, Bool.false_eq_true, if_false, hop]

theorem c7_fetch_amended_witness :
    fetch (fsOf [(artifactPath "/img" uuidOne, [7, 8])]) "/img" uuidOne =
      (Json.obj [("Message", Json.str msgDataOk),
                 ("Data", Json.str (String.mk (base64Encode [7, 8])))],
       [artifactPath "/img" uuidOne, artifactPath "/img" uuidOne]) :=
  (c7_fetch_amended (fsOf [(artifactPath "/img" uuidOne, [7, 8])]) "/img" uuidOne).2.2.2.2
    1 uuidOne [7, 8] rfl (by decide) rfl rfl

/-- C8: a GET request to /charts/line/ping is answered with the JSON body
containing Message "Pong.", and the route answers neither other methods
nor other paths (modelled from the spec; src/main.cpp does not register
this route). -/
theorem c8_ping :
    pingRoute "GET" "/charts/line/ping" =
      some (Json.obj [("Message", Json.str "Pong.")]) ∧
    pingRoute "POST" "/charts/line/ping" = none ∧
    pingRoute "GET" "/charts/line" = none :=
  ⟨rfl, rfl, rfl⟩

/-- C9: the derived X tick sequence has exactly ⌊|xStart| + |xEnd|⌋
entries, starts at xStart when non-empty, its i-th entry is xStart + i,
and each subsequent entry is one greater than its predecessor. -/
theorem c9_x_tick_sequence (a b : Rat) :
    (generalXPointsRange a b).length = (⌊|a| + |b|⌋).toNat ∧
    (0 < (generalXPointsRange a b).length → (generalXPointsRange a b).headI = a) ∧
    (∀ i, i < (generalXPointsRange a b).length →
      (generalXPointsRange a b).getD i 0 = a + (i : Rat)) ∧
    (∀ i, i + 1 < (generalXPointsRange a b).length →
      (generalXPointsRange a b).getD (i + 1) 0 =
        (generalXPointsRange a b).getD i 0 + 1) := by
  have hlen : (generalXPointsRange a b).length = (⌊|a| + |b|⌋).toNat := by
    unfold generalXPointsRange
    rw [List.length_map, List.length_range]
  have hget : ∀ i, i < (generalXPointsRange a b).length →
      (generalXPointsRange a b).getD i 0 = a + (i : Rat) := by
    intro i hi
    unfold generalXPointsRange at hi ⊢
    rw [List.getD_eq_getElem _ _ hi, List.getElem_map, List.getElem_range]
  refine ⟨hlen, ?_, hget, ?_⟩
  · intro h
    have h0 := hget 0 h
    cases hl : generalXPointsRange a b with
    | nil => rw [hl] at h; simp at h
    | cons x xs =>
      rw [hl] at h0
      simpa using h0
  · intro i hi
    have hi' : i < (generalXPointsRange a b).length := Nat.lt_of_succ_lt hi
    rw [hget (i + 1) hi, hget i hi']
    push_cast
    ring

theorem c9_x_tick_sequence_witness :
    (generalXPointsRange 0 5).length = 5 ∧
    (generalXPointsRange 0 5).headI = 0 ∧
    (generalXPointsRange 0 5).getD 3 0 = (generalXPointsRange 0 5).getD 2 0 + 1 := by
  have hlen : (generalXPointsRange 0 5).length = 5 := by
    rw [(c9_x_tick_sequence 0 5).1]
    norm_num
    rfl
  refine ⟨hlen, ?_, ?_⟩
  · exact (c9_x_tick_sequence 0 5).2.1 (by rw [hlen]; norm_num)
  · exact (c9_x_tick_sequence 0 5).2.2.2 2 (by rw [hlen]; norm_num)

/-- C10 (counterexample): an X_Points element that is the boolean true is
accepted by the validator and coerced to 1, not 0, in the resulting
x-coordinates. -/
theorem c10_bool_becomes_one :
    validateOkB (some (mkXReq [Json.bool true])) = true ∧
    captionToPointsOf (pointsObjectsOf [Json.arr [Json.obj
      [("Caption", Json.str "A"),
       ("X_Points", Json.arr [Json.bool true]),
       ("Y_Points", Json.arr [Json.num 1])]]]) = [("A", ([1], [1]))] ∧
    (1 : Rat) ≠ 0 :=
  ⟨rfl, rfl, by norm_num⟩

/-- C10 (amended): X_Points elements are never validated — any element
list passes validation — and they are coerced leniently: numbers pass
through, booleans become 0/1, strings parse as numbers (0 when
unparsable), and null/objects/arrays become 0. -/
theorem c10_lenient_coercion (xList : List Json) (s : String) (b : Bool)
    (kvs : List (String × Json)) (l : List Json) :
    validateOkB (some (mkXReq xList)) = true ∧
    captionToPointsOf (pointsObjectsOf [Json.arr [Json.obj
      [("Caption", Json.str "A"),
       ("X_Points", Json.arr xList),
       ("Y_Points", Json.arr [Json.num 1])]]]) =
      [("A", (xList.map jsonToReal, [1]))] ∧
    jsonToReal (Json.bool b) = (if b then 1 else 0) ∧
    jsonToReal Json.null = 0 ∧
    jsonToReal (Json.obj kvs) = 0 ∧
    jsonToReal (Json.arr l) = 0 ∧
    (parseQDouble s = none → jsonToReal (Json.str s) = 0) ∧
    (∀ q, parseQDouble s = some q → jsonToReal (Json.str s) = q) := by
  refine ⟨rfl, rfl, rfl, rfl, rfl, rfl, ?_, ?_⟩
  · intro h
    show (parseQDouble s).getD 0 = 0
    rw [h]
    rfl
  · intro q h
    show (parseQDouble s).getD 0 = q
    rw [h]
    rfl

theorem c10_lenient_coercion_witness :
    validateOkB (some (mkXReq [Json.bool true, Json.str "abc", Json.null])) = true ∧
    jsonToReal (Json.str "abc") = 0 :=
  ⟨(c10_lenient_coercion [Json.bool true, Json.str "abc", Json.null]
      "abc" true [] []).1,
   (c10_lenient_coercion [] "abc" true [] []).2.2.2.2.2.2.1 rfl⟩

end Linechart
